import Mathlib

/-!
Verification of the dephealth health-scoring engine.

The numeric scoring functions of `src/scoring.ts` (configurable variant),
the legacy scoring variant embedded in the repository, and the boosted
aggregation of `src/analyzer.ts` are shallowly embedded over the reals.
JavaScript numbers are modelled as real numbers; `Math.min`/`Math.max`
are `min`/`max`; `Math.pow` with a natural exponent is `^`; JS
`Math.round` (half toward positive infinity) is `fun x => Int.floor (x + 1/2)`.
JS division by zero produces no finite number (NaN or a signed infinity),
so the one place the code divides by a possibly-zero denominator
(`calculateBoostedScore`) is modelled with an `Option` result where
`none` stands for the non-finite outcome.

The mutable module-level configuration store of `src/scoring.ts` is
modelled with explicit state passing over a small object heap, so that
JavaScript reference aliasing (shallow object spread sharing the nested
group objects) is captured faithfully.
-/

/-- A coerced semantic version, as produced by the external `semver`
library's `coerce`. -/
structure SemVer where
  major : Nat
  minor : Nat
  patch : Nat
deriving DecidableEq, Repr

/-- The `weights` group of `ScoringConfig` (src/types: weights for
lag, vuln, health, activity). -/
structure Weights where
  lag : ℝ
  vuln : ℝ
  health : ℝ
  activity : ℝ

/-- The `constants` group of `ScoringConfig`. The source fields
`maxIssueRatio` and `minStarsForIssueRatio` are here named
`maxIssuesPerStar` and `minStarsForIssues`. -/
structure Constants where
  maxStars : ℝ
  minStarsForIssues : ℝ
  maxIssuesPerStar : ℝ
  activityThresholdDays : ℝ

/-- The `penalties` group of `ScoringConfig`. -/
structure Penalties where
  majorUpdate : ℝ
  minorUpdate : ℝ
  patchUpdate : ℝ
  criticalVuln : ℝ
  highVuln : ℝ
  moderateVuln : ℝ

/-- A full scoring configuration (src/types `ScoringConfig`): three
groups of numeric settings. -/
structure ScoringConfig where
  weights : Weights
  constants : Constants
  penalties : Penalties

/-- Severity counts handed to the vulnerability normalizer
(`{critical, high, moderate}` in src/types `ScoringParams`); the claims
restrict attention to non-negative integer counts. -/
structure Severity where
  critical : Nat
  high : Nat
  moderate : Nat

/-- Per-dependency scoring input (src/types `ScoringParams`). -/
structure ScoringParams where
  current : String
  latest : String
  severity : Severity
  stars : ℝ
  openIssues : ℝ
  lastCommit : String

/-- The hard-coded `DEFAULT_SCORING_CONFIG` of src/scoring.ts. -/
def DEFAULT_SCORING_CONFIG : ScoringConfig :=
  { weights := { lag := 0.25, vuln := 0.35, health := 0.25, activity := 0.15 }
    constants :=
      { maxStars := 100000
        minStarsForIssues := 10
        maxIssuesPerStar := 0.5
        activityThresholdDays := 365 }
    penalties :=
      { majorUpdate := 0.5
        minorUpdate := 0.1
        patchUpdate := 0.02
        criticalVuln := 0.6
        highVuln := 0.3
        moderateVuln := 0.1 } }

/-- Concrete stand-in for the external `semver` library's `coerce`,
used only to evaluate the lag normalizer at concrete version strings:
it accepts plain dotted numeric triples (for which real `coerce` agrees)
and rejects everything else. All general theorems quantify over an
arbitrary coercion function instead. Digit-list helper: parse a
non-empty all-digit character list as a natural number. -/
def parseNatDigits (cs : List Char) : Option Nat :=
  if cs ≠ [] ∧ cs.all Char.isDigit then
    some (cs.foldl (fun n c => 10 * n + (c.toNat - 48)) 0)
  else none

/-- Split a character list at the dots, keeping empty segments. -/
def splitDots : List Char → List (List Char)
  | [] => [[]]
  | c :: rest =>
    if c = '.' then [] :: splitDots rest
    else
      match splitDots rest with
      | [] => [[c]]
      | g :: gs => (c :: g) :: gs

/-- Coerce a version string of the shape digits-dot-digits-dot-digits;
any other string is rejected (models the external library only on the
strings used in concrete evaluations). -/
def semverCoerce (s : String) : Option SemVer :=
  match (splitDots s.data).map parseNatDigits with
  | [some a, some b, some c] => some { major := a, minor := b, patch := c }
  | _ => none

/-- src/scoring.ts `calcLagScore`, with the external `semver.coerce`
abstracted into the `coerce` parameter and the optional per-call config
override already resolved into `cfg` (the source merges it shallowly
onto the current configuration before use). `!latest` is true exactly
for the empty string. -/
def calcLagScore (coerce : String → Option SemVer)
    (current latest : String) (cfg : ScoringConfig) : ℝ :=
  if latest = "" ∨ latest = "unknown" then 1
  else
    match coerce current, coerce latest with
    | some cur, some lat =>
      let dmaj : ℤ := (lat.major : ℤ) - (cur.major : ℤ)
      let dmin : ℤ := (lat.minor : ℤ) - (cur.minor : ℤ)
      let dpat : ℤ := (lat.patch : ℤ) - (cur.patch : ℤ)
      let majorPenalty : ℝ :=
        if 0 < dmaj then cfg.penalties.majorUpdate ^ dmaj.toNat else 0
      let minorPenalty : ℝ := min ((dmin : ℝ) * cfg.penalties.minorUpdate) 0.3
      let patchPenalty : ℝ := min ((dpat : ℝ) * cfg.penalties.patchUpdate) 0.1
      let totalPenalty : ℝ := min (majorPenalty + minorPenalty + patchPenalty) 1
      1 - totalPenalty
    | _, _ => 1

/-- src/scoring.ts `calcVulnScore` (configurable variant, resolved
config passed in). -/
def calcVulnScore (sev : Severity) (cfg : ScoringConfig) : ℝ :=
  let criticalPenalty : ℝ :=
    if 0 < sev.critical then cfg.penalties.criticalVuln ^ sev.critical else 0
  let highPenalty : ℝ := min ((sev.high : ℝ) * cfg.penalties.highVuln) 0.5
  let moderatePenalty : ℝ := min ((sev.moderate : ℝ) * cfg.penalties.moderateVuln) 0.2
  1 - min (criticalPenalty + highPenalty + moderatePenalty) 1

/-- src/scoring.ts `calcCommunityScore`; `Math.log10 x` is `Real.logb 10 x`. -/
noncomputable def calcCommunityScore (stars openIssues : ℝ) (cfg : ScoringConfig) : ℝ :=
  let popularityScore : ℝ :=
    min (Real.logb 10 (stars + 1) / Real.logb 10 (cfg.constants.maxStars + 1)) 1
  let issueScore : ℝ :=
    if cfg.constants.minStarsForIssues ≤ stars then
      max 0 (1 - (openIssues / stars) / cfg.constants.maxIssuesPerStar)
    else if 0 < openIssues then
      max 0 (1 - openIssues / cfg.constants.minStarsForIssues)
    else 1
  popularityScore * 0.6 + issueScore * 0.4

/-- Body of src/scoring.ts `calcActivityScore` after the elapsed days
have been computed from the commit timestamp: the piecewise exponential
decay over the four bands. -/
noncomputable def calcActivityScoreDays (days : ℝ) (cfg : ScoringConfig) : ℝ :=
  if days ≤ 30 then Real.exp (-days / 30)
  else if days ≤ 90 then 0.8 * Real.exp (-(days - 30) / 60)
  else if days ≤ cfg.constants.activityThresholdDays then
    0.5 * Real.exp (-(days - 90) / 275)
  else 0.1 * Real.exp (-(days - cfg.constants.activityThresholdDays) / 365)

/-- src/scoring.ts `calcActivityScore`; the wall-clock/date arithmetic
`(Date.now() - new Date(lastCommit).getTime()) / 86400000` is abstracted
into the `daysOf` parameter. -/
noncomputable def calcActivityScore (daysOf : String → ℝ) (lastCommit : String)
    (cfg : ScoringConfig) : ℝ :=
  if lastCommit = "" then 0 else calcActivityScoreDays (daysOf lastCommit) cfg

/-- JS `Math.round`: nearest integer, halves toward positive infinity. -/
noncomputable def jsRound (x : ℝ) : ℤ := Int.floor (x + 1 / 2)

/-- src/scoring.ts `calcFinalScore`: weighted combination of the four
sub-scores, scaled to 0-100 and clamped, then rounded. -/
noncomputable def calcFinalScore (coerce : String → Option SemVer) (daysOf : String → ℝ)
    (params : ScoringParams) (cfg : ScoringConfig) : ℤ :=
  let lagScore := calcLagScore coerce params.current params.latest cfg
  let vulnScore := calcVulnScore params.severity cfg
  let communityScore := calcCommunityScore params.stars params.openIssues cfg
  let activityScore := calcActivityScore daysOf params.lastCommit cfg
  let value :=
    cfg.weights.lag * lagScore + cfg.weights.vuln * vulnScore +
      cfg.weights.health * communityScore + cfg.weights.activity * activityScore
  jsRound (max 0 (min 100 (value * 100)))

namespace Legacy

/-- The legacy scoring variant's `calcVulnScore` (hard-coded penalty
bases 0.8 / 0.3 / 0.1, no configuration parameter). -/
def calcVulnScore (sev : Severity) : ℝ :=
  let criticalPenalty : ℝ := if 0 < sev.critical then (0.8 : ℝ) ^ sev.critical else 0
  let highPenalty : ℝ := min ((sev.high : ℝ) * 0.3) 0.5
  let moderatePenalty : ℝ := min ((sev.moderate : ℝ) * 0.1) 0.2
  1 - min (criticalPenalty + highPenalty + moderatePenalty) 1

end Legacy

/-- The seven normalized sub-scores of src/analyzer.ts (`Scores`). -/
structure Scores where
  maturity : ℝ
  updateFrequency : ℝ
  deprecation : ℝ
  dependency : ℝ
  download : ℝ
  vulnerability : ℝ
  issues : ℝ

/-- Booster multipliers of src/analyzer.ts `display` (`finalBoosters`). -/
structure Boosters where
  maturity : ℝ
  updateFrequency : ℝ
  deprecation : ℝ
  dependency : ℝ
  download : ℝ
  vulnerability : ℝ
  issues : ℝ

/-- `Object.values(finalBoosters).reduce((sum, weight) => sum + weight, 0)`
from src/analyzer.ts `calculateBoostedScore`. -/
def boosterTotal (b : Boosters) : ℝ :=
  b.maturity + b.updateFrequency + b.deprecation + b.dependency +
    b.download + b.vulnerability + b.issues

/-- src/analyzer.ts `calculateBoostedScore`: boosted sub-scores summed
and divided by the booster total. When the booster total is zero the JS
division produces no finite number (`0/0` is NaN), modelled as `none`. -/
noncomputable def calculateBoostedScore (b : Boosters) (s : Scores) : Option ℝ :=
  let num : ℝ :=
    s.maturity * b.maturity + s.updateFrequency * b.updateFrequency +
      s.deprecation * b.deprecation + s.dependency * b.dependency +
      s.download * b.download + s.vulnerability * b.vulnerability +
      s.issues * b.issues
  if boosterTotal b = 0 then none else some (num / boosterTotal b)

/-- Pointwise scaling of every booster by the same constant. -/
def scaleBoosters (c : ℝ) (b : Boosters) : Boosters :=
  { maturity := c * b.maturity
    updateFrequency := c * b.updateFrequency
    deprecation := c * b.deprecation
    dependency := c * b.dependency
    download := c * b.download
    vulnerability := c * b.vulnerability
    issues := c * b.issues }

/-- A `Partial<ScoringConfig>` as accepted by src/scoring.ts
`setScoringConfig`: each of the three groups is either absent or a
complete group object supplied by the caller. -/
structure PartialConfig where
  weights : Option Weights
  constants : Option Constants
  penalties : Option Penalties

/-- The default `Weights` group object of src/scoring.ts. -/
def defaultWeights : Weights :=
  { lag := 0.25, vuln := 0.35, health := 0.25, activity := 0.15 }

/-- The default `Constants` group object of src/scoring.ts. -/
def defaultConstants : Constants :=
  { maxStars := 100000
    minStarsForIssues := 10
    maxIssuesPerStar := 0.5
    activityThresholdDays := 365 }

/-- The default `Penalties` group object of src/scoring.ts. -/
def defaultPenalties : Penalties :=
  { majorUpdate := 0.5
    minorUpdate := 0.1
    patchUpdate := 0.02
    criticalVuln := 0.6
    highVuln := 0.3
    moderateVuln := 0.1 }

/-- A JavaScript reference to a configuration object: the heap addresses
of its three nested group objects. A shallow spread such as
`{ ...currentConfig }` allocates a fresh top-level object but copies these
three addresses unchanged, so two shallow copies share their groups. -/
structure ConfigRef where
  w : Nat
  c : Nat
  p : Nat

/-- The mutable module state of src/scoring.ts: a heap of group objects
per group kind, an allocation cursor, and the `currentConfig` reference.
Address 0 of each heap holds the group objects of
`DEFAULT_SCORING_CONFIG`, allocated at module load. -/
structure Store where
  wHeap : Nat → Weights
  cHeap : Nat → Constants
  pHeap : Nat → Penalties
  fresh : Nat
  current : ConfigRef

/-- Module-load state: `currentConfig = { ...DEFAULT_SCORING_CONFIG }`
is a shallow copy, so `currentConfig` shares all three group objects
(addresses 0) with the default configuration object. -/
def initialStore : Store :=
  { wHeap := fun _ => defaultWeights
    cHeap := fun _ => defaultConstants
    pHeap := fun _ => defaultPenalties
    fresh := 1
    current := { w := 0, c := 0, p := 0 } }

/-- Write a caller-supplied group object into the heap at the given
address when present; absent groups leave the heap unchanged. -/
def optWrite {α : Type} (heap : Nat → α) (a : Nat) (v : Option α) : Nat → α :=
  match v with
  | none => heap
  | some x => fun b => if b = a then x else heap b

/-- Address a group reference resolves to after a shallow spread: the
caller's fresh object when the group was supplied, otherwise the base
object's group address. -/
def addrOf {α : Type} (v : Option α) (a dflt : Nat) : Nat :=
  match v with
  | none => dflt
  | some _ => a

/-- src/scoring.ts `setScoringConfig`:
`currentConfig = { ...DEFAULT_SCORING_CONFIG, ...config }` — a shallow
spread over the *defaults*: every supplied group replaces the whole
group (a freshly allocated caller object), every absent group falls back
to the default group object at address 0. Three fresh slots are reserved
per call so supplied group objects never alias pre-existing ones. -/
def setScoringConfig (p : PartialConfig) (s : Store) : Store :=
  { wHeap := optWrite s.wHeap s.fresh p.weights
    cHeap := optWrite s.cHeap (s.fresh + 1) p.constants
    pHeap := optWrite s.pHeap (s.fresh + 2) p.penalties
    fresh := s.fresh + 3
    current :=
      { w := addrOf p.weights s.fresh 0
        c := addrOf p.constants (s.fresh + 1) 0
        p := addrOf p.penalties (s.fresh + 2) 0 } }

/-- src/scoring.ts `getScoringConfig`: `return { ...currentConfig }` —
the returned top-level object is fresh, but its three group references
are the current configuration's group addresses, shared with the
internal state. -/
def getScoringConfig (s : Store) : ConfigRef := s.current

/-- src/scoring.ts `resetScoringConfig`:
`currentConfig = { ...DEFAULT_SCORING_CONFIG }` — rebinds the current
configuration to a shallow copy of the default object, i.e. to the
default group addresses; no heap cell is restored. -/
def resetScoringConfig (s : Store) : Store :=
  { s with current := { w := 0, c := 0, p := 0 } }

/-- Caller-side mutation of a nested group object through a reference,
e.g. `copy.weights.vuln = 0.99`: writes the group heap cell in place. -/
def writeWeights (s : Store) (a : Nat) (w : Weights) : Store :=
  { s with wHeap := fun b => if b = a then w else s.wHeap b }

/-- The configuration value a reference denotes in a store: dereference
all three groups. -/
def configValue (s : Store) (r : ConfigRef) : ScoringConfig :=
  { weights := s.wHeap r.w, constants := s.cHeap r.c, penalties := s.pHeap r.p }

/-- The value of the internal current configuration. -/
def currentValue (s : Store) : ScoringConfig :=
  configValue s s.current

/-- One mutating operation on the configuration store. -/
inductive ConfigOp where
  | set : PartialConfig → ConfigOp
  | reset : ConfigOp

/-- Apply one configuration operation. -/
def applyOp (s : Store) (op : ConfigOp) : Store :=
  match op with
  | ConfigOp.set p => setScoringConfig p s
  | ConfigOp.reset => resetScoringConfig s

/-- Run a sequence of configuration operations from a given store. -/
def runOps (ops : List ConfigOp) (s : Store) : Store :=
  ops.foldl applyOp s

/-- The legacy module-load binding `export const WEIGHTS =
currentConfig.weights`: the address of the weights group object captured
at load time (which is the default weights object, by the shallow copy). -/
def WEIGHTS_ADDR : Nat := initialStore.current.w

/-- Legacy export `MAX_STARS = currentConfig.constants.maxStars`,
a primitive copied at module load. -/
noncomputable def MAX_STARS : ℝ :=
  (initialStore.cHeap initialStore.current.c).maxStars

/-- Legacy export `MIN_STARS_FOR_ISSUE_RATIO` (renamed), a primitive
copied at module load. -/
noncomputable def MIN_STARS_FOR_ISSUES : ℝ :=
  (initialStore.cHeap initialStore.current.c).minStarsForIssues

/-- Legacy export `MAX_ISSUE_RATIO` (renamed), a primitive copied at
module load. -/
noncomputable def MAX_ISSUES_PER_STAR : ℝ :=
  (initialStore.cHeap initialStore.current.c).maxIssuesPerStar

/-- Legacy export `ACTIVITY_THRESHOLD_DAYS`, a primitive copied at
module load. -/
noncomputable def ACTIVITY_THRESHOLD_DAYS : ℝ :=
  (initialStore.cHeap initialStore.current.c).activityThresholdDays

/-- The store invariant maintained by every configuration operation:
the allocation cursor stays past the default objects, and address 0 of
each heap still holds the default group values. -/
def StoreInv (s : Store) : Prop :=
  1 ≤ s.fresh ∧ s.wHeap 0 = defaultWeights ∧ s.cHeap 0 = defaultConstants ∧
    s.pHeap 0 = defaultPenalties

/-- A per-call override supplying only a weights group whose `vuln`
entry is 0.9 (the other weight entries keep their default values in the
supplied group object). -/
def partialW9 : PartialConfig :=
  { weights := some { defaultWeights with vuln := 0.9 }
    constants := none
    penalties := none }

/-- A partial supplying only a constants group with `maxStars` lowered. -/
def partialK50 : PartialConfig :=
  { weights := none
    constants := some { defaultConstants with maxStars := 50000 }
    penalties := none }

/-- The store after `const copy = getScoringConfig(); copy.weights.vuln
= 0.99` executed at module-load state: the caller mutates the weights
group object reached through the returned shallow copy. -/
def mutatedStore : Store :=
  writeWeights initialStore (getScoringConfig initialStore).w
    { initialStore.wHeap (getScoringConfig initialStore).w with vuln := 0.99 }

/-- A metric record with current equal to latest, no vulnerabilities,
zero stars and issues, and an unknown last-commit timestamp. -/
def paramsClean : ScoringParams :=
  { current := "1.0.0", latest := "1.0.0"
    severity := { critical := 0, high := 0, moderate := 0 }
    stars := 0, openIssues := 0, lastCommit := "" }

/-- Default configuration with the weight set replaced by
lag 0.25, vuln 0.25, health 0, activity 0. -/
def cfgQuarterWeights : ScoringConfig :=
  { weights := { lag := 0.25, vuln := 0.25, health := 0, activity := 0 }
    constants := defaultConstants
    penalties := defaultPenalties }

/-- The same configuration with every weight doubled. -/
def cfgHalfWeights : ScoringConfig :=
  { weights := { lag := 0.5, vuln := 0.5, health := 0, activity := 0 }
    constants := defaultConstants
    penalties := defaultPenalties }

/-- Every configuration operation preserves the store invariant: the
default group objects at address 0 are never overwritten by
`setScoringConfig` (which writes only fresh addresses) or
`resetScoringConfig` (which writes no heap cell). -/
theorem storeInv_applyOp (s : Store) (op : ConfigOp) (h : StoreInv s) :
    StoreInv (applyOp s op) := by
  obtain ⟨h1, hw, hc, hp⟩ := h
  cases op with
  | reset => exact ⟨h1, hw, hc, hp⟩
  | set p =>
    refine ⟨by simp only [applyOp, setScoringConfig]; omega, ?_, ?_, ?_⟩
    · cases hpw : p.weights with
      | none => simpa [applyOp, setScoringConfig, optWrite, hpw]
      | some w =>
        simp only [applyOp, setScoringConfig, optWrite, hpw]
        rw [if_neg (by omega)]
        exact hw
    · cases hpc : p.constants with
      | none => simpa [applyOp, setScoringConfig, optWrite, hpc]
      | some k =>
        simp only [applyOp, setScoringConfig, optWrite, hpc]
        rw [if_neg (by omega)]
        exact hc
    · cases hpp : p.penalties with
      | none => simpa [applyOp, setScoringConfig, optWrite, hpp]
      | some q =>
        simp only [applyOp, setScoringConfig, optWrite, hpp]
        rw [if_neg (by omega)]
        exact hp

/-- The store invariant is preserved by any sequence of configuration
operations. -/
theorem storeInv_runOps (ops : List ConfigOp) (s : Store) (h : StoreInv s) :
    StoreInv (runOps ops s) := by
  induction ops generalizing s with
  | nil => exact h
  | cons op rest ih =>
    simpa [runOps, List.foldl] using ih (applyOp s op) (storeInv_applyOp s op h)

/-- The module-load state satisfies the store invariant. -/
theorem storeInv_initialStore : StoreInv initialStore :=
  ⟨le_refl 1, rfl, rfl, rfl⟩

/-- Claim C1. The claim is false on the code: the version-lag normalizer
guards only the major diff against negativity, so for
current "0.2.0" against latest "0.0.0" (a negative minor diff of -2)
the minor penalty is min(-0.2, 0.3) = -0.2 and the score is 1.2,
outside the claimed range of zero to one. -/
theorem calcLagScore_negative_minor_diff_exceeds_one :
    calcLagScore semverCoerce "0.2.0" "0.0.0" DEFAULT_SCORING_CONFIG = 6 / 5 ∧
      1 < calcLagScore semverCoerce "0.2.0" "0.0.0" DEFAULT_SCORING_CONFIG := by
  have h : calcLagScore semverCoerce "0.2.0" "0.0.0" DEFAULT_SCORING_CONFIG = 6 / 5 := by
    rw [calcLagScore, if_neg (by decide),
      show semverCoerce "0.2.0" = some { major := 0, minor := 2, patch := 0 } from by decide,
      show semverCoerce "0.0.0" = some { major := 0, minor := 0, patch := 0 } from by decide]
    norm_num [DEFAULT_SCORING_CONFIG, min_def]
  exact ⟨h, by rw [h]; norm_num⟩

/-- Claim C2 counterexample. With the default configuration, raising the
critical count from one to two raises the vulnerability sub-score from
0.4 to 0.64, because the penalty 0.6^c shrinks as c grows: the claimed
monotonicity is false on the code. -/
theorem calcVulnScore_more_criticals_increase_score :
    calcVulnScore { critical := 1, high := 0, moderate := 0 } DEFAULT_SCORING_CONFIG = 2 / 5 ∧
      calcVulnScore { critical := 2, high := 0, moderate := 0 } DEFAULT_SCORING_CONFIG = 16 / 25 ∧
      calcVulnScore { critical := 1, high := 0, moderate := 0 } DEFAULT_SCORING_CONFIG <
        calcVulnScore { critical := 2, high := 0, moderate := 0 } DEFAULT_SCORING_CONFIG := by
  refine ⟨?_, ?_, ?_⟩ <;> norm_num [calcVulnScore, DEFAULT_SCORING_CONFIG, min_def]

/-- Claim C2 amended. For non-negative penalty units the vulnerability
sub-score is non-increasing in the high and moderate counts, and raising
the critical count from zero to any value does not increase it; however
among positive critical counts the sub-score grows with the count (see
the counterexample), since the critical term is a base-below-one power. -/
theorem calcVulnScore_monotone_high_moderate_zero_critical :
    ∀ (cfg : ScoringConfig) (c k1 k2 m1 m2 : ℕ),
      (0 ≤ cfg.penalties.highVuln → k1 ≤ k2 →
        calcVulnScore { critical := c, high := k2, moderate := m1 } cfg ≤
          calcVulnScore { critical := c, high := k1, moderate := m1 } cfg) ∧
      (0 ≤ cfg.penalties.moderateVuln → m1 ≤ m2 →
        calcVulnScore { critical := c, high := k1, moderate := m2 } cfg ≤
          calcVulnScore { critical := c, high := k1, moderate := m1 } cfg) ∧
      (0 ≤ cfg.penalties.criticalVuln →
        calcVulnScore { critical := c, high := k1, moderate := m1 } cfg ≤
          calcVulnScore { critical := 0, high := k1, moderate := m1 } cfg) := by
  intro cfg c k1 k2 m1 m2
  refine ⟨fun hu hk => ?_, fun hu hm => ?_, fun hu => ?_⟩
  · rw [calcVulnScore, calcVulnScore]
    simp only
    gcongr
  · rw [calcVulnScore, calcVulnScore]
    simp only
    gcongr
  · have h0 : (0 : ℝ) ≤ if 0 < c then cfg.penalties.criticalVuln ^ c else 0 := by
      split
      · exact pow_nonneg hu c
      · exact le_rfl
    simp only [calcVulnScore]
    rw [if_neg (lt_irrefl 0)]
    gcongr

/-- Witness for the amended C2 monotonicity at the default configuration
and concrete counts. -/
theorem calcVulnScore_monotone_witness :
    calcVulnScore { critical := 1, high := 2, moderate := 0 } DEFAULT_SCORING_CONFIG ≤
        calcVulnScore { critical := 1, high := 1, moderate := 0 } DEFAULT_SCORING_CONFIG ∧
      calcVulnScore { critical := 1, high := 1, moderate := 3 } DEFAULT_SCORING_CONFIG ≤
        calcVulnScore { critical := 1, high := 1, moderate := 0 } DEFAULT_SCORING_CONFIG ∧
      calcVulnScore { critical := 1, high := 1, moderate := 0 } DEFAULT_SCORING_CONFIG ≤
        calcVulnScore { critical := 0, high := 1, moderate := 0 } DEFAULT_SCORING_CONFIG :=
  ⟨(calcVulnScore_monotone_high_moderate_zero_critical DEFAULT_SCORING_CONFIG 1 1 2 0 3).1
      (by norm_num [DEFAULT_SCORING_CONFIG]) (by norm_num),
    (calcVulnScore_monotone_high_moderate_zero_critical DEFAULT_SCORING_CONFIG 1 1 2 0 3).2.1
      (by norm_num [DEFAULT_SCORING_CONFIG]) (by norm_num),
    (calcVulnScore_monotone_high_moderate_zero_critical DEFAULT_SCORING_CONFIG 1 1 2 0 3).2.2
      (by norm_num [DEFAULT_SCORING_CONFIG])⟩

/-- Claim C3 counterexample. `calcFinalScore` does not re-normalize by
the weight sum: on a record scoring lag 1, vuln 1, community 0.4,
activity 0, weights lag 0.25 / vuln 0.25 give 50, but the proportionally
doubled weights lag 0.5 / vuln 0.5 give 100 — scaling every weight by
the same positive constant changes the aggregate. -/
theorem calcFinalScore_not_scale_invariant :
    calcFinalScore semverCoerce (fun _ => 0) paramsClean cfgQuarterWeights = 50 ∧
      calcFinalScore semverCoerce (fun _ => 0) paramsClean cfgHalfWeights = 100 ∧
      calcFinalScore semverCoerce (fun _ => 0) paramsClean cfgQuarterWeights ≠
        calcFinalScore semverCoerce (fun _ => 0) paramsClean cfgHalfWeights := by
  have hlag : ∀ cfg : ScoringConfig, calcLagScore semverCoerce "1.0.0" "1.0.0" cfg = 1 := by
    intro cfg
    rw [calcLagScore, if_neg (by decide),
      show semverCoerce "1.0.0" = some { major := 1, minor := 0, patch := 0 } from by decide]
    norm_num [min_def]
  have hvuln : ∀ cfg : ScoringConfig,
      calcVulnScore { critical := 0, high := 0, moderate := 0 } cfg = 1 := by
    intro cfg
    norm_num [calcVulnScore, min_def]
  have hact : ∀ cfg : ScoringConfig, calcActivityScore (fun _ => 0) "" cfg = 0 := by
    intro cfg
    simp [calcActivityScore]
  have hcommQ : calcCommunityScore 0 0 cfgQuarterWeights = 2 / 5 := by
    rw [calcCommunityScore]
    norm_num [cfgQuarterWeights, defaultConstants, Real.logb_one]
  have hcommH : calcCommunityScore 0 0 cfgHalfWeights = 2 / 5 := by
    rw [calcCommunityScore]
    norm_num [cfgHalfWeights, defaultConstants, Real.logb_one]
  have h1 : calcFinalScore semverCoerce (fun _ => 0) paramsClean cfgQuarterWeights = 50 := by
    rw [calcFinalScore]
    simp only [paramsClean]
    rw [hlag, hvuln, hact, hcommQ]
    norm_num [cfgQuarterWeights, jsRound, Int.floor_eq_iff]
  have h2 : calcFinalScore semverCoerce (fun _ => 0) paramsClean cfgHalfWeights = 100 := by
    rw [calcFinalScore]
    simp only [paramsClean]
    rw [hlag, hvuln, hact, hcommH]
    norm_num [cfgHalfWeights, jsRound, Int.floor_eq_iff]
  exact ⟨h1, h2, by rw [h1, h2]; norm_num⟩

/-- Claim C3 amended. The boosted aggregation of src/analyzer.ts does
re-normalize by the booster sum, so scaling every booster by the same
nonzero constant leaves the boosted score unchanged; the weighted
`calcFinalScore` has no such re-normalization (see the counterexample). -/
theorem calculateBoostedScore_scale_invariant :
    ∀ (c : ℝ) (b : Boosters) (s : Scores), c ≠ 0 →
      calculateBoostedScore (scaleBoosters c b) s = calculateBoostedScore b s := by
  intro c b s hc
  rw [calculateBoostedScore, calculateBoostedScore]
  have hT : boosterTotal (scaleBoosters c b) = c * boosterTotal b := by
    simp only [boosterTotal, scaleBoosters]
    ring
  rw [hT]
  by_cases h : boosterTotal b = 0
  · rw [h, mul_zero]
    simp
  · rw [if_neg (mul_ne_zero hc h), if_neg h]
    simp only [scaleBoosters]
    have hnum :
        s.maturity * (c * b.maturity) + s.updateFrequency * (c * b.updateFrequency) +
            s.deprecation * (c * b.deprecation) + s.dependency * (c * b.dependency) +
            s.download * (c * b.download) + s.vulnerability * (c * b.vulnerability) +
            s.issues * (c * b.issues) =
          c * (s.maturity * b.maturity + s.updateFrequency * b.updateFrequency +
            s.deprecation * b.deprecation + s.dependency * b.dependency +
            s.download * b.download + s.vulnerability * b.vulnerability +
            s.issues * b.issues) := by ring
    rw [hnum, mul_div_mul_left _ _ hc]

/-- Witness for the amended C3 at the analyzer's default boosters,
doubling every booster. -/
theorem calculateBoostedScore_scale_invariant_witness :
    calculateBoostedScore
        (scaleBoosters 2
          { maturity := 2, updateFrequency := 1, deprecation := 4, dependency := 1
            download := 1, vulnerability := 2, issues := 1 })
        { maturity := 0.5, updateFrequency := 0.25, deprecation := 1, dependency := 0.75
          download := 0.1, vulnerability := 1, issues := 0.6 } =
      calculateBoostedScore
        { maturity := 2, updateFrequency := 1, deprecation := 4, dependency := 1
          download := 1, vulnerability := 2, issues := 1 }
        { maturity := 0.5, updateFrequency := 0.25, deprecation := 1, dependency := 0.75
          download := 0.1, vulnerability := 1, issues := 0.6 } :=
  calculateBoostedScore_scale_invariant 2
    { maturity := 2, updateFrequency := 1, deprecation := 4, dependency := 1
      download := 1, vulnerability := 2, issues := 1 }
    { maturity := 0.5, updateFrequency := 0.25, deprecation := 1, dependency := 0.75
      download := 0.1, vulnerability := 1, issues := 0.6 }
    (by norm_num)

/-- Claim C4 counterexample. Two `setScoringConfig` calls with disjoint
partials do not compose: after supplying a weights group with vuln 0.9
and then supplying only a constants group, the weights revert to their
defaults (vuln 0.35), not the union claimed (vuln 0.9) — each call
merges onto the hard-coded defaults, not onto the current configuration. -/
theorem setScoringConfig_disjoint_partials_not_union :
    (currentValue (setScoringConfig partialK50
          (setScoringConfig partialW9 initialStore))).weights.vuln = 7 / 20 ∧
      (currentValue (setScoringConfig partialK50
          (setScoringConfig partialW9 initialStore))).weights.vuln ≠ 9 / 10 := by
  have h :
      (currentValue (setScoringConfig partialK50
          (setScoringConfig partialW9 initialStore))).weights.vuln = 7 / 20 := by
    norm_num [currentValue, configValue, setScoringConfig, initialStore, optWrite,
      addrOf, defaultWeights, partialW9, partialK50]
  exact ⟨h, by rw [h]; norm_num⟩

/-- Claim C4 amended. `setScoringConfig` replaces the configuration by
the defaults overlaid with the supplied groups: each supplied group
replaces that whole group, each absent group reverts to its default —
independently of the configuration that was current before the call. -/
theorem setScoringConfig_overlays_defaults :
    ∀ (s : Store) (p : PartialConfig), StoreInv s →
      currentValue (setScoringConfig p s) =
        { weights := p.weights.getD defaultWeights
          constants := p.constants.getD defaultConstants
          penalties := p.penalties.getD defaultPenalties } := by
  intro s p hinv
  obtain ⟨h1, hw, hc, hp⟩ := hinv
  obtain ⟨pw, pc, pp⟩ := p
  cases pw <;> cases pc <;> cases pp <;>
    simp_all [currentValue, configValue, setScoringConfig, optWrite, addrOf]

/-- Witness for the amended C4 at the module-load store with a
weights-only partial. -/
theorem setScoringConfig_overlays_defaults_witness :
    StoreInv initialStore ∧
      currentValue (setScoringConfig partialW9 initialStore) =
        { weights := partialW9.weights.getD defaultWeights
          constants := partialW9.constants.getD defaultConstants
          penalties := partialW9.penalties.getD defaultPenalties } :=
  ⟨storeInv_initialStore,
    setScoringConfig_overlays_defaults initialStore partialW9 storeInv_initialStore⟩

/-- Claim C5. The claim is right and the code is wrong: `getScoringConfig`
returns only a shallow copy, so the caller mutation `copy.weights.vuln =
0.99` writes the shared weights group object. Afterwards the internal
configuration (and even the one restored by `resetScoringConfig`, which
shares the same default group object) reads vuln 0.99 instead of the
default 0.35. -/
theorem getScoringConfig_shared_groups_bug :
    (configValue initialStore (getScoringConfig initialStore)).weights.vuln = 7 / 20 ∧
      (configValue mutatedStore (getScoringConfig mutatedStore)).weights.vuln = 99 / 100 ∧
      (configValue (resetScoringConfig mutatedStore)
          (getScoringConfig (resetScoringConfig mutatedStore))).weights.vuln = 99 / 100 := by
  refine ⟨?_, ?_, ?_⟩ <;>
    norm_num [configValue, mutatedStore, writeWeights, getScoringConfig,
      resetScoringConfig, initialStore, defaultWeights]

/-- Claim C6 counterexample. With every booster zero the boosted
aggregation divides zero by zero: the JS result is NaN, not a defined
fallback number (modelled: no finite value is returned). -/
theorem calculateBoostedScore_zero_boosters_not_numeric :
    calculateBoostedScore
        { maturity := 0, updateFrequency := 0, deprecation := 0, dependency := 0
          download := 0, vulnerability := 0, issues := 0 }
        { maturity := 1, updateFrequency := 1, deprecation := 1, dependency := 1
          download := 1, vulnerability := 1, issues := 1 } = none := by
  norm_num [calculateBoostedScore, boosterTotal]

/-- Claim C6 amended. `calcFinalScore` performs no division, so with an
all-zero weight set it returns the defined value 0 for every record; the
boosted aggregation of src/analyzer.ts, which does divide by the booster
total, yields NaN (no numeric value) whenever the boosters sum to zero,
with no fallback. -/
theorem zero_total_weight_aggregates :
    (∀ (coerce : String → Option SemVer) (daysOf : String → ℝ)
        (params : ScoringParams) (k : Constants) (pen : Penalties),
        calcFinalScore coerce daysOf params
          { weights := { lag := 0, vuln := 0, health := 0, activity := 0 }
            constants := k, penalties := pen } = 0) ∧
      (∀ s : Scores,
        calculateBoostedScore
          { maturity := 0, updateFrequency := 0, deprecation := 0, dependency := 0
            download := 0, vulnerability := 0, issues := 0 } s = none) := by
  constructor
  · intro coerce daysOf params k pen
    rw [calcFinalScore]
    norm_num [jsRound, Int.floor_eq_iff]
  · intro s
    norm_num [calculateBoostedScore, boosterTotal]

/-- Claim C7. The version-lag normalizer returns exactly 1 whenever the
latest version is empty or the sentinel unknown, and whenever either
version string fails to coerce — for every coercion function, i.e. for
any behaviour of the external semver library. -/
theorem calcLagScore_sentinel_and_unparseable_return_one :
    ∀ (coerce : String → Option SemVer) (cur lat : String) (cfg : ScoringConfig),
      ((lat = "" ∨ lat = "unknown") → calcLagScore coerce cur lat cfg = 1) ∧
      (coerce cur = none → calcLagScore coerce cur lat cfg = 1) ∧
      (coerce lat = none → calcLagScore coerce cur lat cfg = 1) := by
  intro coerce cur lat cfg
  refine ⟨fun h => by rw [calcLagScore, if_pos h], fun h => ?_, fun h => ?_⟩
  · rw [calcLagScore]
    split
    · rfl
    · rw [h]
  · rw [calcLagScore]
    split
    · rfl
    · rw [h]
      cases coerce cur <;> rfl

/-- Witness for C7 at concrete strings: the unknown sentinel, the empty
string, and an unparseable version on either side. -/
theorem calcLagScore_sentinel_witness :
    calcLagScore semverCoerce "1.2.3" "unknown" DEFAULT_SCORING_CONFIG = 1 ∧
      calcLagScore semverCoerce "1.2.3" "" DEFAULT_SCORING_CONFIG = 1 ∧
      calcLagScore semverCoerce "not-a-version" "3.1.4" DEFAULT_SCORING_CONFIG = 1 ∧
      calcLagScore semverCoerce "3.1.4" "not-a-version" DEFAULT_SCORING_CONFIG = 1 :=
  ⟨(calcLagScore_sentinel_and_unparseable_return_one semverCoerce
      "1.2.3" "unknown" DEFAULT_SCORING_CONFIG).1 (Or.inr rfl),
    (calcLagScore_sentinel_and_unparseable_return_one semverCoerce
      "1.2.3" "" DEFAULT_SCORING_CONFIG).1 (Or.inl rfl),
    (calcLagScore_sentinel_and_unparseable_return_one semverCoerce
      "not-a-version" "3.1.4" DEFAULT_SCORING_CONFIG).2.1 (by decide),
    (calcLagScore_sentinel_and_unparseable_return_one semverCoerce
      "3.1.4" "not-a-version" DEFAULT_SCORING_CONFIG).2.2 (by decide)⟩

/-- Claim C8. The claim is right and the code is wrong: the activity
decay bands do not connect at day 30 — the very-recent band ends at
exp(-1), roughly 0.368, while the recent band starts near 0.8, so one
more day of inactivity raises the activity sub-score. -/
theorem calcActivityScoreDays_jump_at_day_thirty :
    calcActivityScoreDays 30 DEFAULT_SCORING_CONFIG <
      calcActivityScoreDays 31 DEFAULT_SCORING_CONFIG := by
  rw [calcActivityScoreDays, if_pos (by norm_num),
    calcActivityScoreDays, if_neg (by norm_num), if_pos (by norm_num)]
  have h1 : (2.7182818283 : ℝ) < Real.exp 1 := Real.exp_one_gt_d9
  have h2 : Real.exp (-(30 : ℝ) / 30) = (Real.exp 1)⁻¹ := by
    norm_num [Real.exp_neg]
  have h3 : (Real.exp 1)⁻¹ < (2.7182818283 : ℝ)⁻¹ :=
    inv_strictAnti₀ (by norm_num) h1
  have h4 : (1 : ℝ) - 1 / 60 ≤ Real.exp (-(1 : ℝ) / 60) := by
    have := Real.add_one_le_exp (-(1 : ℝ) / 60)
    linarith
  calc Real.exp (-(30 : ℝ) / 30) = (Real.exp 1)⁻¹ := h2
    _ < (2.7182818283 : ℝ)⁻¹ := h3
    _ < 0.8 * (1 - 1 / 60) := by norm_num
    _ ≤ 0.8 * Real.exp (-(31 - 30) / 60) := by
        have he : (-(31 - 30) : ℝ) / 60 = -(1 : ℝ) / 60 := by norm_num
        rw [he]
        nlinarith [h4]

/-- Claim C9 counterexample. With the configurable module's default
configuration, one critical vulnerability yields a sub-score of 0.4, not
the claimed 0.2: the default critical penalty base is 0.6, not 0.8. -/
theorem calcVulnScore_one_critical_not_point_two :
    calcVulnScore { critical := 1, high := 0, moderate := 0 } DEFAULT_SCORING_CONFIG ≠
      1 / 5 := by
  norm_num [calcVulnScore, DEFAULT_SCORING_CONFIG, min_def]

/-- Claim C9 amended. One critical vulnerability yields 1 - 0.6 = 0.4
under the configurable module's defaults; the 1 - 0.8 = 0.2 value of the
claim is produced by the repository's legacy scoring variant, whose
hard-coded critical base is 0.8. -/
theorem calcVulnScore_one_critical_values :
    calcVulnScore { critical := 1, high := 0, moderate := 0 } DEFAULT_SCORING_CONFIG =
        2 / 5 ∧
      Legacy.calcVulnScore { critical := 1, high := 0, moderate := 0 } = 1 / 5 := by
  constructor
  · norm_num [calcVulnScore, DEFAULT_SCORING_CONFIG, min_def]
  · norm_num [Legacy.calcVulnScore, min_def]

/-- Claim C10. The legacy exports are frozen at module load: after every
sequence of `setScoringConfig` / `resetScoringConfig` operations the
weights object captured by `WEIGHTS` still holds the default weight
values, and the primitive exports carry the default constants — while
the current configuration itself can diverge from them, as the final
conjunct shows for a weights override. -/
theorem legacy_exports_frozen :
    (∀ ops : List ConfigOp,
        (runOps ops initialStore).wHeap WEIGHTS_ADDR = defaultWeights) ∧
      MAX_STARS = 100000 ∧ MIN_STARS_FOR_ISSUES = 10 ∧
      MAX_ISSUES_PER_STAR = 1 / 2 ∧ ACTIVITY_THRESHOLD_DAYS = 365 ∧
      (currentValue (setScoringConfig partialW9 initialStore)).weights ≠
        (setScoringConfig partialW9 initialStore).wHeap WEIGHTS_ADDR := by
  refine ⟨?_, ?_, ?_, ?_, ?_, ?_⟩
  · intro ops
    exact (storeInv_runOps ops initialStore storeInv_initialStore).2.1
  · norm_num [MAX_STARS, initialStore, defaultConstants]
  · norm_num [MIN_STARS_FOR_ISSUES, initialStore, defaultConstants]
  · norm_num [MAX_ISSUES_PER_STAR, initialStore, defaultConstants]
  · norm_num [ACTIVITY_THRESHOLD_DAYS, initialStore, defaultConstants]
  · intro hEq
    have hv := congrArg Weights.vuln hEq
    norm_num [currentValue, configValue, setScoringConfig, optWrite, addrOf,
      initialStore, defaultWeights, WEIGHTS_ADDR, partialW9] at hv
